import Mathlib

/-!
Shallow embedding of the core of `mmns.py` (the lightweight Mininet-style
module): the `Node` state, the `mount_override` / `_start_mount_helper` /
`_unmount_in_helper` / `_add_mount_in_helper` protocol, and the two command
execution paths `cmd` and `cmd_stream`.

External effects (the filesystem probed through `os.path`, process liveness
probed through `os.kill(pid, 0)`, and the outcomes of the spawned external
commands) are supplied by environment records whose fields are oracles: each
field answers exactly the question the Python code asks of the OS at the
corresponding call site.  Side effects that the source performs on the world
(unmounts, bind mounts, signals to process groups, the PID-file unlink) are
recorded in an event trace so that theorems can speak about which external
operations a call performed and in which order.
-/

namespace Mmns

/-- `os.path.isabs` on POSIX: the path starts with the separator "/"
(i.e. its first character is '/'). -/
def isabs (p : String) : Bool :=
  match p.data with
  | [] => false
  | c :: _ => c == '/'

/-- The mutable fields of `Node` that the modelled methods read or write
(`name`, `interfaces`, `if_count`, `mount_ns_pid`, `mount_overrides`). -/
structure NodeState where
  name : String
  interfaces : List String
  if_count : Nat
  mount_ns_pid : Option Nat
  mount_overrides : List (String × String)
deriving Repr, DecidableEq

/-- The state `Node.__init__` leaves behind (netns creation is an external
effect; the object fields start empty with no helper pid and no overrides). -/
def Node.init (name : String) : NodeState :=
  { name := name, interfaces := [], if_count := 0,
    mount_ns_pid := none, mount_overrides := [] }

/-- The Python exceptions the modelled code can raise, one constructor per
raise site / exception class:
  * `sourceNotFound` = `FileNotFoundError` (the spec's SourceNotFoundError),
  * `invalidPath`    = `ValueError` (the spec's InvalidPathError),
  * `helperStartup`  = `RuntimeError` raised in `_start_mount_helper`
    (the spec's HelperStartupError),
  * `mountOp`        = `RuntimeError` raised in `_add_mount_in_helper`
    (the spec's MountOperationError),
  * `commandTimeout` = `subprocess.TimeoutExpired` (the spec's CommandTimeout),
  * `typeError`      = `TypeError`, raised by evaluating `int(None)`. -/
inductive Err where
  | sourceNotFound (msg : String)
  | invalidPath (msg : String)
  | helperStartup (msg : String)
  | mountOp (msg : String)
  | commandTimeout
  | typeError (msg : String)
deriving Repr, DecidableEq

/-- Externally visible operations the modelled code performs, in order. -/
inductive Event where
  /-- the `subprocess.Popen` of the `ip netns exec … unshare --mount …`
  helper in `_start_mount_helper` -/
  | spawnHelper
  /-- `os.unlink(pid_file)` after the handshake PID file was read -/
  | unlinkPidFile
  /-- `proc.terminate()` on the helper in the retry-ceiling branch -/
  | terminateHelperProc
  /-- `_unmount_in_helper`: `nsenter --target pid --mount … umount target` -/
  | unmount (target : String)
  /-- `_add_mount_in_helper`: `nsenter … mount --bind src target` -/
  | bindMount (target src : String)
  /-- the debug `ip netns identify pid` probe in `cmd` -/
  | netnsIdentify (pid : Nat)
  /-- `nsenter --target pid --mount --net bash -c command` -/
  | nsenterRun (pid : Nat) (command : String)
  /-- `ip netns exec name bash -c command` -/
  | netnsRun (name command : String)
  /-- `os.killpg(…, signal.SIGINT)` on the spawned command's group -/
  | sigintGroup
  /-- `os.killpg(…, signal.SIGTERM)` on the spawned command's group -/
  | sigtermGroup
deriving Repr, DecidableEq

/-! ### `_start_mount_helper` -/

/-- Oracle for one run of `_start_mount_helper`: what the polling loop
observes at each iteration, the captured log content, and the pid the
handshake PID file holds. -/
structure HelperEnv where
  /-- does `os.path.exists(pid_file)` hold at loop iteration `i` -/
  pidFileAt : Nat → Bool
  /-- is `proc.poll() is not None` at loop iteration `i` -/
  procExitedAt : Nat → Bool
  /-- contents of the captured log file -/
  logContent : String
  /-- `int(f.read().strip())` from the PID file -/
  helperPid : Nat

/-- Result of the `for i in range(30): … else: …` polling loop. -/
inductive StartOutcome where
  | found (i : Nat)
  | exited (i : Nat)
  | ceiling
deriving Repr, DecidableEq

/-- The polling loop of `_start_mount_helper`: at each of the `fuel`
remaining iterations (index `i`), after the 0.1 s sleep, first check the
PID file, then check whether the helper process exited; falling off the end
of `range(30)` reaches the `else` (ceiling) branch. -/
def pollLoop (h : HelperEnv) : Nat → Nat → StartOutcome
  | 0, _ => .ceiling
  | fuel + 1, i =>
    if h.pidFileAt i then .found i
    else if h.procExitedAt i then .exited i
    else pollLoop h fuel (i + 1)

/-- `Node._start_mount_helper`: spawn the anchor, poll (at most 30 times)
for the handshake PID file; on success record the pid from the file and
unlink the file; if the process exits first, raise carrying the log; at the
retry ceiling, terminate the process and raise a fixed timeout message. -/
def start_mount_helper (henv : HelperEnv) (s : NodeState) :
    NodeState × List Event × Except Err Unit :=
  match pollLoop henv 30 0 with
  | .found _ =>
      ({ s with mount_ns_pid := some henv.helperPid },
       [Event.spawnHelper, Event.unlinkPidFile], Except.ok ())
  | .exited _ =>
      (s, [Event.spawnHelper],
       Except.error (.helperStartup ("mount helper failed: " ++ henv.logContent)))
  | .ceiling =>
      (s, [Event.spawnHelper, Event.terminateHelperProc],
       Except.error (.helperStartup "mount helper timeout"))

/-! ### `mount_override` -/

/-- Environment for one `mount_override` call: the host filesystem probes,
the `os.kill(pid, 0)` liveness probe, the outcome of the bind-mount command
run through `nsenter` by `_add_mount_in_helper` (plus its stderr on
failure), and the oracle for any `_start_mount_helper` invocation. -/
structure Env where
  /-- `os.path.exists` -/
  pathExists : String → Bool
  /-- `os.path.isfile` -/
  isFile : String → Bool
  /-- `os.kill(pid, 0)` raises no `OSError`/`ProcessLookupError` -/
  alive : Nat → Bool
  /-- the `mkdir/touch && mount --bind src target` command, run via
  `nsenter` into the helper's mount namespace, returned 0 -/
  bindOk : String → String → Bool
  /-- `result.stderr` of that command when it fails -/
  bindStderr : String
  /-- oracle for `_start_mount_helper` -/
  helper : HelperEnv

/-- Does some ledger entry have the given target (the scan of the
`for existing_target, existing_src in self.mount_overrides` loop)? -/
def hasTarget (l : List (String × String)) (t : String) : Bool :=
  l.any (fun e => e.1 == t)

/-- Remove the first ledger entry whose target matches: the combined effect
of the duplicate-scan loop's `self.mount_overrides.remove((existing_target,
existing_src)); break`. -/
def removeFirstTarget : List (String × String) → String → List (String × String)
  | [], _ => []
  | e :: rest, t => if e.1 == t then rest else e :: removeFirstTarget rest t

/-- Number of `unmount t` events in a trace. -/
def unmountCount : List Event → String → Nat
  | [], _ => 0
  | Event.unmount u :: rest, t => (if u == t then 1 else 0) + unmountCount rest t
  | _ :: rest, t => unmountCount rest t

/-- The tail of `mount_override` after the helper is known to exist: the
duplicate-target unmount/removal followed by `_add_mount_in_helper` and the
ledger append (returns `self.mount_ns_pid`). -/
def doMount (env : Env) (s : NodeState) (ev : List Event)
    (target_path src_path : String) :
    NodeState × List Event × Except Err (Option Nat) :=
  let s1 : NodeState :=
    if hasTarget s.mount_overrides target_path then
      { s with mount_overrides := removeFirstTarget s.mount_overrides target_path }
    else s
  let ev1 : List Event :=
    if hasTarget s.mount_overrides target_path then [Event.unmount target_path]
    else []
  if env.bindOk target_path src_path then
    ({ s1 with mount_overrides := s1.mount_overrides ++ [(target_path, src_path)] },
     ev ++ ev1 ++ [Event.bindMount target_path src_path],
     Except.ok s1.mount_ns_pid)
  else
    (s1, ev ++ ev1,
     Except.error (.mountOp ("Failed to add mount: " ++ env.bindStderr)))

/-- The liveness check / restart block of `mount_override` (runs after the
first-mount helper start): probe `os.kill(int(self.mount_ns_pid), 0)`; on
failure clear the pid and the ledger and start a fresh helper; then fall
through to the mount itself. -/
def afterEnsure (env : Env) (s : NodeState) (ev : List Event)
    (target_path src_path : String) :
    NodeState × List Event × Except Err (Option Nat) :=
  match s.mount_ns_pid with
  | none =>
      -- unreachable from `mount_override` (the pid was just set), kept for
      -- totality: `int(None)` would raise
      (s, ev, Except.error (.typeError "int() argument is None"))
  | some p =>
      if env.alive p then
        doMount env s ev target_path src_path
      else
        match start_mount_helper env.helper
            { s with mount_ns_pid := none, mount_overrides := [] } with
        | (s2, ev2, Except.error e) => (s2, ev ++ ev2, Except.error e)
        | (s2, ev2, Except.ok ()) => doMount env s2 (ev ++ ev2) target_path src_path

/-- `Node.mount_override(target_path, src_path)`: precondition checks in
source order (source existence, then target absoluteness, then source
absoluteness), helper start on first use, liveness check with
restart-on-death (which clears the ledger), duplicate-target unmount, bind
mount, ledger append. -/
def mount_override (env : Env) (s0 : NodeState) (target_path src_path : String) :
    NodeState × List Event × Except Err (Option Nat) :=
  if env.pathExists src_path = false then
    (s0, [], Except.error (.sourceNotFound ("src path not found: " ++ src_path)))
  else if isabs target_path = false then
    (s0, [], Except.error (.invalidPath "target_path must be absolute"))
  else if isabs src_path = false then
    (s0, [], Except.error (.invalidPath "src_path must be absolute"))
  else
    match s0.mount_ns_pid with
    | none =>
        match start_mount_helper env.helper s0 with
        | (s1, ev1, Except.error e) => (s1, ev1, Except.error e)
        | (s1, ev1, Except.ok ()) => afterEnsure env s1 ev1 target_path src_path
    | some _ => afterEnsure env s0 [] target_path src_path

/-! ### `cmd` (capturing mode) -/

/-- Outcome of one `subprocess.run(..., capture_output=True, text=True,
timeout=timeout)` call: it completed with captured stdout/stderr, or it
raised `TimeoutExpired`. -/
inductive RunOutcome where
  | done (out err : String)
  | timedOut
deriving Repr, DecidableEq

/-- Environment for one `cmd` call. -/
structure CmdEnv where
  /-- `os.kill(pid, 0)` liveness probe -/
  alive : Nat → Bool
  /-- outcome of `nsenter --target pid --mount --net bash -c command` -/
  runBoth : Nat → String → RunOutcome
  /-- outcome of `ip netns exec name bash -c command` -/
  runNetns : String → RunOutcome

/-- The shared fallback tail of `cmd`: `ip netns exec <name> bash -c <c>`,
returning `(proc.stdout or "") + (proc.stderr or "")`. -/
def cmd_fallback (env : CmdEnv) (s : NodeState) (command : String) :
    NodeState × List Event × Except Err String :=
  match env.runNetns command with
  | .done o e => (s, [Event.netnsRun s.name command], Except.ok (o ++ e))
  | .timedOut => (s, [Event.netnsRun s.name command], Except.error .commandTimeout)

/-- `Node.cmd(command, timeout)`.  When `self.mount_ns_pid` is truthy, probe
liveness; if the probe fails the pid is set to `None` and the very next
statement — the debug `ip netns identify {int(self.mount_ns_pid)}` f-string
— evaluates `int(None)` and raises `TypeError`, so the netns-exec fallback
on the dead-anchor path is never reached.  When the pid is alive, the debug
probe runs and the command is executed via `nsenter --mount --net`; when
the pid is `None` (or `0`, falsy), the command runs via `ip netns exec`. -/
def cmd (env : CmdEnv) (s : NodeState) (command : String) :
    NodeState × List Event × Except Err String :=
  match s.mount_ns_pid with
  | some p =>
      if p = 0 then
        cmd_fallback env s command
      else if env.alive p then
        match env.runBoth p command with
        | .done o e =>
            (s, [Event.netnsIdentify p, Event.nsenterRun p command],
             Except.ok (o ++ e))
        | .timedOut =>
            (s, [Event.netnsIdentify p, Event.nsenterRun p command],
             Except.error .commandTimeout)
      else
        ({ s with mount_ns_pid := none }, [],
         Except.error (.typeError "int() argument is None"))
  | none => cmd_fallback env s command

/-! ### `cmd_stream` (streaming mode) -/

/-- Outcome of `proc.wait(timeout=timeout)` on the streamed command:
normal exit with a code (`returncode = code`), death by a signal
(`returncode = -sig`, the `subprocess` convention), or no exit within the
timeout (`TimeoutExpired`). -/
inductive WaitOutcome where
  | exited (code : Nat)
  | signaled (sig : Nat)
  | hangs
deriving Repr, DecidableEq

/-- Environment for one `cmd_stream` call. -/
structure StreamEnv where
  /-- `os.kill(pid, 0)` liveness probe -/
  alive : Nat → Bool
  /-- what `proc.wait(timeout=timeout)` observes -/
  waitOutcome : WaitOutcome
  /-- a `KeyboardInterrupt` arrives while streaming / waiting -/
  interrupted : Bool
  /-- after `SIGINT`, the process group exits within the 2 s grace wait -/
  exitsInGrace : Bool

/-- `Node.cmd_stream(command, timeout)`: choose the entry path (here the
dead-anchor case correctly falls back to `ip netns exec`), spawn the
command in its own process group, stream its output, then: normal wait
returns the `returncode`; `TimeoutExpired` sends `SIGTERM` to the group,
waits, and returns `-1`; `KeyboardInterrupt` sends `SIGINT`, waits up to
2 s, escalates to `SIGTERM` if needed, and returns `-2`. -/
def cmd_stream (env : StreamEnv) (s : NodeState) (command : String) :
    NodeState × List Event × Int :=
  let entry : NodeState × List Event :=
    match s.mount_ns_pid with
    | some p =>
        if p = 0 then (s, [Event.netnsRun s.name command])
        else if env.alive p then (s, [Event.nsenterRun p command])
        else ({ s with mount_ns_pid := none }, [Event.netnsRun s.name command])
    | none => (s, [Event.netnsRun s.name command])
  let s' := entry.1
  let ev0 := entry.2
  if env.interrupted then
    if env.exitsInGrace then
      (s', ev0 ++ [Event.sigintGroup], -2)
    else
      (s', ev0 ++ [Event.sigintGroup, Event.sigtermGroup], -2)
  else
    match env.waitOutcome with
    | .exited c => (s', ev0, (c : Int))
    | .signaled g => (s', ev0, -(g : Int))
    | .hangs => (s', ev0 ++ [Event.sigtermGroup], -1)

/-- Did `cmd` / `cmd_stream` run the liveness probe and see a dead pid?
(The probe runs only when `self.mount_ns_pid` is truthy.) -/
def deadProbe (alive : Nat → Bool) (s : NodeState) : Bool :=
  match s.mount_ns_pid with
  | some p => if p = 0 then false else !(alive p)
  | none => false

/-- The ledger entries whose target is `t`. -/
def targetEntries (l : List (String × String)) (t : String) : List (String × String) :=
  l.filter (fun e => e.1 == t)

/-! ### Concrete environments and states used in closed evaluations -/

/-- Helper oracle whose handshake PID file is present at the first poll. -/
def helperQuick (pid : Nat) : HelperEnv :=
  { pidFileAt := fun _ => true, procExitedAt := fun _ => false,
    logContent := "Mount helper started", helperPid := pid }

/-- Helper oracle where the PID file never appears and the helper process
never exits, so the polling loop reaches its retry ceiling. -/
def helperCeiling (log : String) : HelperEnv :=
  { pidFileAt := fun _ => false, procExitedAt := fun _ => false,
    logContent := log, helperPid := 0 }

/-- Helper oracle where the helper process has already exited at the first
poll and the PID file never appears. -/
def helperExits (log : String) : HelperEnv :=
  { pidFileAt := fun _ => false, procExitedAt := fun _ => true,
    logContent := log, helperPid := 0 }

/-- Environment where every probe succeeds: pid `hp` is the only live
process, fresh helpers hand out pid `hp`, binds succeed. -/
def envAllOk (hp : Nat) : Env :=
  { pathExists := fun _ => true, isFile := fun _ => true,
    alive := fun p => p == hp, bindOk := fun _ _ => true,
    bindStderr := "", helper := helperQuick hp }

/-- Environment where every liveness probe fails, a fresh helper with pid
`hp` starts successfully, and binds succeed. -/
def envAllDead (hp : Nat) : Env :=
  { pathExists := fun _ => true, isFile := fun _ => true,
    alive := fun _ => false, bindOk := fun _ _ => true,
    bindStderr := "", helper := helperQuick hp }

/-- Environment where pid `hp` is alive but the bind-mount command inside
the helper's namespace fails with stderr "boom". -/
def envBindFails (hp : Nat) : Env :=
  { pathExists := fun _ => true, isFile := fun _ => true,
    alive := fun p => p == hp, bindOk := fun _ _ => false,
    bindStderr := "boom", helper := helperQuick hp }

/-- Environment where every liveness probe fails, a fresh helper with pid
200 starts successfully, but the bind-mount command fails with stderr
"boom". -/
def envDeadBindFails : Env :=
  { pathExists := fun _ => true, isFile := fun _ => true,
    alive := fun _ => false, bindOk := fun _ _ => false,
    bindStderr := "boom", helper := helperQuick 200 }

/-- Environment where no path exists on the host filesystem. -/
def envNoSource : Env :=
  { pathExists := fun _ => false, isFile := fun _ => false,
    alive := fun _ => false, bindOk := fun _ _ => false,
    bindStderr := "", helper := helperQuick 0 }

/-- A node that recorded anchor pid 4242 (no longer alive in
`cenvDeadAnchor`). -/
def nodeStale : NodeState := { Node.init "h1" with mount_ns_pid := some 4242 }

/-- A node whose recorded anchor pid is 7. -/
def nodeLive7 : NodeState := { Node.init "h1" with mount_ns_pid := some 7 }

/-- A node with anchor pid `hp` and one recorded override of target
`"/t"` from source `"/s0"`. -/
def nodeWithT (hp : Nat) : NodeState :=
  { name := "h1", interfaces := [], if_count := 0,
    mount_ns_pid := some hp, mount_overrides := [("/t", "/s0")] }

/-- `cmd` environment: every pid is dead, yet both execution paths would
succeed if attempted (`ip netns exec` would return "ok"). -/
def cenvDeadAnchor : CmdEnv :=
  { alive := fun _ => false, runBoth := fun _ _ => .done "" "",
    runNetns := fun _ => .done "ok" "" }

/-- `cmd` environment with live pid 7 and successful runs. -/
def cenvLive : CmdEnv :=
  { alive := fun p => p == 7, runBoth := fun _ _ => .done "A" "B",
    runNetns := fun _ => .done "N" "" }

/-- `cmd` environment with live pid 7 where every spawned command exceeds
its timeout. -/
def cenvTimesOut : CmdEnv :=
  { alive := fun p => p == 7, runBoth := fun _ _ => .timedOut,
    runNetns := fun _ => .timedOut }

/-- Streaming environment: the command's shell is killed by signal 1
(SIGHUP); no timeout, no interrupt. -/
def senvHup : StreamEnv :=
  { alive := fun _ => true, waitOutcome := .signaled 1,
    interrupted := false, exitsInGrace := true }

/-- Streaming environment: a KeyboardInterrupt arrives and the process
group does not exit within the 2 s grace window. -/
def senvIntr : StreamEnv :=
  { alive := fun _ => true, waitOutcome := .exited 0,
    interrupted := true, exitsInGrace := false }

/-- Streaming environment: the command hangs past its timeout. -/
def senvHangs : StreamEnv :=
  { alive := fun _ => true, waitOutcome := .hangs,
    interrupted := false, exitsInGrace := true }

/-- Streaming environment: the command exits normally with code 3. -/
def senvExit3 : StreamEnv :=
  { alive := fun _ => true, waitOutcome := .exited 3,
    interrupted := false, exitsInGrace := true }

/-! ### Supporting lemmas -/

theorem pollLoop_found_lt (h : HelperEnv) :
    ∀ fuel j i, pollLoop h fuel j = .found i → i < j + fuel := by
  intro fuel
  induction fuel with
  | zero => intro j i hq; simp [pollLoop] at hq
  | succ n ih =>
    intro j i hq
    unfold pollLoop at hq
    by_cases h1 : h.pidFileAt j
    · rw [if_pos h1] at hq
      injection hq with h2
      omega
    · rw [if_neg h1] at hq
      by_cases h2 : h.procExitedAt j
      · rw [if_pos h2] at hq
        exact StartOutcome.noConfusion hq
      · rw [if_neg h2] at hq
        have := ih (j + 1) i hq
        omega

theorem pollLoop_exited_lt (h : HelperEnv) :
    ∀ fuel j i, pollLoop h fuel j = .exited i → i < j + fuel := by
  intro fuel
  induction fuel with
  | zero => intro j i hq; simp [pollLoop] at hq
  | succ n ih =>
    intro j i hq
    unfold pollLoop at hq
    by_cases h1 : h.pidFileAt j
    · rw [if_pos h1] at hq
      exact StartOutcome.noConfusion hq
    · rw [if_neg h1] at hq
      by_cases h2 : h.procExitedAt j
      · rw [if_pos h2] at hq
        injection hq with h3
        omega
      · rw [if_neg h2] at hq
        have := ih (j + 1) i hq
        omega

theorem targetEntries_removeFirstTarget (l : List (String × String)) (t : String) :
    targetEntries (removeFirstTarget l t) t = (targetEntries l t).tail := by
  induction l with
  | nil => simp [targetEntries, removeFirstTarget]
  | cons e rest ih =>
    cases hb : e.1 == t with
    | true => simp [targetEntries, removeFirstTarget, List.filter_cons, hb]
    | false =>
      have h1 : removeFirstTarget (e :: rest) t = e :: removeFirstTarget rest t := by
        simp [removeFirstTarget, hb]
      have h2 : targetEntries (e :: removeFirstTarget rest t) t
          = targetEntries (removeFirstTarget rest t) t := by
        simp [targetEntries, List.filter_cons, hb]
      have h3 : targetEntries (e :: rest) t = targetEntries rest t := by
        simp [targetEntries, List.filter_cons, hb]
      rw [h1, h2, ih, h3]

theorem hasTarget_iff_targetEntries (l : List (String × String)) (t : String) :
    hasTarget l t = true ↔ targetEntries l t ≠ [] := by
  constructor
  · intro hl hnil
    rcases List.any_eq_true.mp hl with ⟨e, hmem, hpe⟩
    have hm : e ∈ targetEntries l t := List.mem_filter.mpr ⟨hmem, hpe⟩
    rw [hnil] at hm
    exact absurd hm (List.not_mem_nil e)
  · intro hne
    rcases List.exists_mem_of_ne_nil _ hne with ⟨e, he⟩
    have hm := List.mem_filter.mp he
    exact List.any_eq_true.mpr ⟨e, hm.1, hm.2⟩

theorem tail_eq_nil_of_length_le_one {α : Type} {l : List α} (h : l.length ≤ 1) :
    l.tail = [] := by
  cases l with
  | nil => rfl
  | cons a rest =>
    cases rest with
    | nil => rfl
    | cons b r => simp [List.length_cons] at h

theorem unmountCount_append (a b : List Event) (t : String) :
    unmountCount (a ++ b) t = unmountCount a t + unmountCount b t := by
  induction a with
  | nil => simp [unmountCount]
  | cons e rest ih =>
    cases e <;> (simp [unmountCount, ih]; try omega)

theorem unmountCount_self (t : String) :
    unmountCount [Event.unmount t] t = 1 := by
  simp [unmountCount]

theorem start_ok_inv {henv : HelperEnv} {s s2 : NodeState} {ev2 : List Event}
    {u : Unit} (h : start_mount_helper henv s = (s2, ev2, Except.ok u)) :
    s2 = { s with mount_ns_pid := some henv.helperPid } ∧
    ev2 = [Event.spawnHelper, Event.unlinkPidFile] := by
  unfold start_mount_helper at h
  split at h
  · injection h with h1 h2
    injection h2 with h3 h4
    exact ⟨h1.symm, h3.symm⟩
  · injection h with h1 h2
    injection h2 with h3 h4
    exact Except.noConfusion h4
  · injection h with h1 h2
    injection h2 with h3 h4
    exact Except.noConfusion h4

theorem removeFirstTarget_of_hasTarget_false {l : List (String × String)}
    {t : String} (h : hasTarget l t = false) : removeFirstTarget l t = l := by
  induction l with
  | nil => rfl
  | cons e rest ih =>
    simp only [hasTarget, List.any_cons, Bool.or_eq_false_iff] at h
    have h2 : hasTarget rest t = false := h.2
    simp [removeFirstTarget, h.1, ih h2]

theorem doMount_ok_inv {env : Env} {s : NodeState} {ev : List Event}
    {T S : String} {s' : NodeState} {ev' : List Event} {r : Option Nat}
    (h : doMount env s ev T S = (s', ev', Except.ok r)) :
    s'.mount_overrides = removeFirstTarget s.mount_overrides T ++ [(T, S)] ∧
    s'.mount_ns_pid = s.mount_ns_pid ∧
    unmountCount ev' T =
      unmountCount ev T + (if hasTarget s.mount_overrides T then 1 else 0) := by
  unfold doMount at h
  by_cases hT : hasTarget s.mount_overrides T = true
  · rw [if_pos hT, if_pos hT] at h
    by_cases hB : env.bindOk T S = true
    · rw [if_pos hB] at h
      injection h with h1 h2
      injection h2 with h3 h4
      subst h1 h3
      refine ⟨rfl, rfl, ?_⟩
      simp [hT, unmountCount_append, unmountCount]
    · rw [if_neg hB] at h
      injection h with h1 h2
      injection h2 with h3 h4
      exact Except.noConfusion h4
  · rw [if_neg hT, if_neg hT] at h
    have hTf : hasTarget s.mount_overrides T = false := by
      cases hx : hasTarget s.mount_overrides T
      · rfl
      · exact absurd hx hT
    by_cases hB : env.bindOk T S = true
    · rw [if_pos hB] at h
      injection h with h1 h2
      injection h2 with h3 h4
      subst h1 h3
      refine ⟨?_, rfl, ?_⟩
      · rw [removeFirstTarget_of_hasTarget_false hTf]
      · simp [hTf, unmountCount_append, unmountCount]
    · rw [if_neg hB] at h
      injection h with h1 h2
      injection h2 with h3 h4
      exact Except.noConfusion h4

theorem err_triple_absurd {α β γ : Type} {x x' : α} {y y' : β} {e : Err} {r : γ}
    {C : Prop}
    (h : (x, y, (Except.error e : Except Err γ)) = (x', y', Except.ok r)) : C := by
  injection h with h1 h2
  injection h2 with h3 h4
  exact Except.noConfusion h4

theorem afterEnsure_ok_inv {env : Env} {s : NodeState} {ev : List Event}
    {T S : String} {s' : NodeState} {ev' : List Event} {r : Option Nat}
    (hu : unmountCount ev T = 0)
    (h : afterEnsure env s ev T S = (s', ev', Except.ok r)) :
    (s'.mount_overrides = removeFirstTarget s.mount_overrides T ++ [(T, S)] ∧
       unmountCount ev' T = (if hasTarget s.mount_overrides T then 1 else 0)) ∨
    (s'.mount_overrides = [(T, S)] ∧ unmountCount ev' T = 0) := by
  unfold afterEnsure at h
  split at h
  · exact err_triple_absurd h
  · rename_i p heq
    by_cases ha : env.alive p = true
    · rw [if_pos ha] at h
      rcases doMount_ok_inv h with ⟨h1, _h2, h3⟩
      left
      refine ⟨h1, ?_⟩
      rw [h3, hu]
      omega
    · rw [if_neg ha] at h
      split at h
      · exact err_triple_absurd h
      · rename_i s2 ev2 heq2
        rcases start_ok_inv heq2 with ⟨hs2, hev2⟩
        subst hs2 hev2
        rcases doMount_ok_inv h with ⟨h1, _h2, h3⟩
        right
        constructor
        · simpa using h1
        · rw [h3]
          simp [unmountCount_append, unmountCount, hu, hasTarget]

theorem mount_override_ok_inv {env : Env} {s : NodeState} {T S : String}
    {s' : NodeState} {ev : List Event} {r : Option Nat}
    (h : mount_override env s T S = (s', ev, Except.ok r)) :
    (s'.mount_overrides = removeFirstTarget s.mount_overrides T ++ [(T, S)] ∧
       unmountCount ev T = (if hasTarget s.mount_overrides T then 1 else 0)) ∨
    (s'.mount_overrides = [(T, S)] ∧ unmountCount ev T = 0) := by
  unfold mount_override at h
  by_cases h1 : env.pathExists S = false
  · rw [if_pos h1] at h; exact err_triple_absurd h
  · rw [if_neg h1] at h
    by_cases h2 : isabs T = false
    · rw [if_pos h2] at h; exact err_triple_absurd h
    · rw [if_neg h2] at h
      by_cases h3 : isabs S = false
      · rw [if_pos h3] at h; exact err_triple_absurd h
      · rw [if_neg h3] at h
        split at h
        · split at h
          · exact err_triple_absurd h
          · rename_i s1 ev1 heq
            rcases start_ok_inv heq with ⟨hs1, hev1⟩
            subst hs1 hev1
            have hres := afterEnsure_ok_inv (by simp [unmountCount]) h
            simpa using hres
        · exact afterEnsure_ok_inv (by simp [unmountCount]) h

theorem mount_override_alive_ok_inv {env : Env} {s : NodeState} {T S : String}
    {p : Nat} (hp : s.mount_ns_pid = some p) (ha : env.alive p = true)
    {s' : NodeState} {ev : List Event} {r : Option Nat}
    (h : mount_override env s T S = (s', ev, Except.ok r)) :
    s'.mount_overrides = removeFirstTarget s.mount_overrides T ++ [(T, S)] ∧
    s'.mount_ns_pid = some p ∧
    unmountCount ev T = (if hasTarget s.mount_overrides T then 1 else 0) := by
  unfold mount_override at h
  by_cases h1 : env.pathExists S = false
  · rw [if_pos h1] at h; exact err_triple_absurd h
  · rw [if_neg h1] at h
    by_cases h2 : isabs T = false
    · rw [if_pos h2] at h; exact err_triple_absurd h
    · rw [if_neg h2] at h
      by_cases h3 : isabs S = false
      · rw [if_pos h3] at h; exact err_triple_absurd h
      · rw [if_neg h3] at h
        split at h
        · rename_i heq
          rw [hp] at heq
          exact Option.noConfusion heq
        · rename_i p2 heq
          rw [hp] at heq
          injection heq with hpe
          subst hpe
          unfold afterEnsure at h
          split at h
          · rename_i heq2
            rw [hp] at heq2
            exact Option.noConfusion heq2
          · rename_i p3 heq2
            rw [hp] at heq2
            injection heq2 with hpe2
            subst hpe2
            rw [if_pos ha] at h
            rcases doMount_ok_inv h with ⟨g1, g2, g3⟩
            refine ⟨g1, ?_, ?_⟩
            · rw [g2, hp]
            · rw [g3]
              simp [unmountCount]

theorem mount_override_dead_ok_inv {env : Env} {s : NodeState} {T S : String}
    {p : Nat} (hp : s.mount_ns_pid = some p) (hdead : env.alive p = false)
    {s' : NodeState} {ev : List Event} {r : Option Nat}
    (h : mount_override env s T S = (s', ev, Except.ok r)) :
    s'.mount_overrides = [(T, S)] ∧
    s'.mount_ns_pid = some env.helper.helperPid ∧
    unmountCount ev T = 0 := by
  unfold mount_override at h
  by_cases h1 : env.pathExists S = false
  · rw [if_pos h1] at h; exact err_triple_absurd h
  · rw [if_neg h1] at h
    by_cases h2 : isabs T = false
    · rw [if_pos h2] at h; exact err_triple_absurd h
    · rw [if_neg h2] at h
      by_cases h3 : isabs S = false
      · rw [if_pos h3] at h; exact err_triple_absurd h
      · rw [if_neg h3] at h
        split at h
        · rename_i heq
          rw [hp] at heq
          exact Option.noConfusion heq
        · rename_i p2 heq
          rw [hp] at heq
          injection heq with hpe
          subst hpe
          unfold afterEnsure at h
          split at h
          · rename_i heq2
            rw [hp] at heq2
            exact Option.noConfusion heq2
          · rename_i p3 heq2
            rw [hp] at heq2
            injection heq2 with hpe2
            subst hpe2
            rw [if_neg (by simp [hdead])] at h
            split at h
            · exact err_triple_absurd h
            · rename_i s2 ev2 heq3
              rcases start_ok_inv heq3 with ⟨hs2, hev2⟩
              subst hs2 hev2
              rcases doMount_ok_inv h with ⟨g1, g2, g3⟩
              refine ⟨?_, ?_, ?_⟩
              · simpa using g1
              · simpa using g2
              · rw [g3]
                simp [unmountCount_append, unmountCount, hasTarget]

theorem targetEntries_append (a b : List (String × String)) (t : String) :
    targetEntries (a ++ b) t = targetEntries a t ++ targetEntries b t := by
  simp [targetEntries, List.filter_append]

theorem targetEntries_pair (t s : String) :
    targetEntries [(t, s)] t = [(t, s)] := by
  simp [targetEntries]

/-! ### Claim theorems -/

/-- C1 (code bug): the spec requires that with a dead or absent anchor,
`cmd` executes via `ip netns exec` and returns the output, never raising
because the anchor died.  The code does so for an absent anchor (second
conjunct), but for a dead anchor it clears `mount_ns_pid` and then
evaluates `int(self.mount_ns_pid)` — `int(None)` — inside the debug
`ip netns identify` f-string, raising `TypeError` before the fallback is
reached (first conjunct): no command runs at all, even though the
`ip netns exec` path would have succeeded in this environment. -/
theorem C1_dead_anchor_cmd_raises :
    cmd cenvDeadAnchor nodeStale "echo hi"
      = ({ nodeStale with mount_ns_pid := none }, [],
         Except.error (Err.typeError "int() argument is None")) ∧
    cmd cenvDeadAnchor (Node.init "h1") "echo hi"
      = (Node.init "h1", [Event.netnsRun "h1" "echo hi"], Except.ok "ok") := by
  constructor
  · rfl
  · rfl

/-- C3 (amended): a bind failure surfaces as MountOperationError carrying
the command's stderr, and the failed call never appends to the ledger nor
restores an entry.  When the probed anchor is alive — whether it was
already recorded (first conjunct) or just started on first use (third
conjunct) — the ledger afterwards equals the prior ledger with its first
`target` entry removed: unchanged when `target` had no entry, but missing
the prior entry (unmounted and removed before the failing bind) when it
had one.  When the probed anchor is dead (second and fourth conjuncts),
the restart has already cleared the ledger before the bind fails, so the
ledger afterwards is empty and the fresh anchor's pid is recorded: every
prior entry is lost.  These four conjuncts cover every path on which the
bind command runs and fails. -/
theorem C3_bind_failure_ledger (env : Env) (s : NodeState) (T S : String)
    (p i : Nat) (hsrc : env.pathExists S = true) (ht : isabs T = true)
    (hs : isabs S = true) (hb : env.bindOk T S = false) :
    (s.mount_ns_pid = some p → env.alive p = true →
      mount_override env s T S =
        ({ s with mount_overrides := removeFirstTarget s.mount_overrides T },
         (if hasTarget s.mount_overrides T then [Event.unmount T] else []),
         Except.error (Err.mountOp ("Failed to add mount: " ++ env.bindStderr)))) ∧
    (s.mount_ns_pid = some p → env.alive p = false →
      pollLoop env.helper 30 0 = StartOutcome.found i →
      mount_override env s T S =
        ({ s with
            mount_ns_pid := some env.helper.helperPid
            mount_overrides := [] },
         [Event.spawnHelper, Event.unlinkPidFile],
         Except.error (Err.mountOp ("Failed to add mount: " ++ env.bindStderr)))) ∧
    (s.mount_ns_pid = none → pollLoop env.helper 30 0 = StartOutcome.found i →
      env.alive env.helper.helperPid = true →
      mount_override env s T S =
        ({ s with
            mount_ns_pid := some env.helper.helperPid
            mount_overrides := removeFirstTarget s.mount_overrides T },
         [Event.spawnHelper, Event.unlinkPidFile] ++
           (if hasTarget s.mount_overrides T then [Event.unmount T] else []),
         Except.error (Err.mountOp ("Failed to add mount: " ++ env.bindStderr)))) ∧
    (s.mount_ns_pid = none → pollLoop env.helper 30 0 = StartOutcome.found i →
      env.alive env.helper.helperPid = false →
      mount_override env s T S =
        ({ s with
            mount_ns_pid := some env.helper.helperPid
            mount_overrides := [] },
         [Event.spawnHelper, Event.unlinkPidFile,
          Event.spawnHelper, Event.unlinkPidFile],
         Except.error (Err.mountOp ("Failed to add mount: " ++ env.bindStderr)))) := by
  refine ⟨?_, ?_, ?_, ?_⟩
  · intro hp ha
    by_cases hT : hasTarget s.mount_overrides T = true
    · simp only [mount_override, afterEnsure, doMount, hp, hsrc, ht, hs, ha, hb, hT]
      simp
    · have hTf : hasTarget s.mount_overrides T = false := by
        cases hx : hasTarget s.mount_overrides T
        · rfl
        · exact absurd hx hT
      simp only [mount_override, afterEnsure, doMount, hp, hsrc, ht, hs, ha, hb, hTf]
      simp [removeFirstTarget_of_hasTarget_false hTf]
      rw [← hp]
  · intro hp hdead hstart
    simp only [mount_override, afterEnsure, start_mount_helper, doMount,
      hp, hsrc, ht, hs, hdead, hstart, hb]
    simp [hasTarget]
  · intro hpn hstart halive
    by_cases hT : hasTarget s.mount_overrides T = true
    · simp only [mount_override, afterEnsure, start_mount_helper, doMount,
        hpn, hsrc, ht, hs, hstart, halive, hb, hT]
      simp
    · have hTf : hasTarget s.mount_overrides T = false := by
        cases hx : hasTarget s.mount_overrides T
        · rfl
        · exact absurd hx hT
      simp only [mount_override, afterEnsure, start_mount_helper, doMount,
        hpn, hsrc, ht, hs, hstart, halive, hb, hTf]
      simp [removeFirstTarget_of_hasTarget_false hTf]
  · intro hpn hstart hdead
    simp only [mount_override, afterEnsure, start_mount_helper, doMount,
      hpn, hsrc, ht, hs, hstart, hdead, hb]
    simp [hasTarget]

/-- C3 witness: concrete instances of the amended theorem.  First: anchor
pid 9 alive, target "/t" already overridden by "/s0", bind of "/s2"
fails — the prior entry is unmounted and lost, nothing appended.  Second:
anchor pid 100 dead, restart brings up pid 200 and clears the ledger,
then the bind fails — the ledger ends empty with the fresh pid
recorded. -/
theorem C3_bind_failure_ledger_witness :
    mount_override (envBindFails 9) (nodeWithT 9) "/t" "/s2" =
      ({ nodeWithT 9 with mount_overrides := [] },
       [Event.unmount "/t"],
       Except.error (Err.mountOp "Failed to add mount: boom")) ∧
    mount_override envDeadBindFails (nodeWithT 100) "/t" "/s2" =
      ({ nodeWithT 100 with
          mount_ns_pid := some 200
          mount_overrides := [] },
       [Event.spawnHelper, Event.unlinkPidFile],
       Except.error (Err.mountOp "Failed to add mount: boom")) := by
  constructor
  · exact (C3_bind_failure_ledger (envBindFails 9) (nodeWithT 9) "/t" "/s2" 9 0
      rfl rfl rfl rfl).1 rfl rfl
  · exact (C3_bind_failure_ledger envDeadBindFails (nodeWithT 100) "/t" "/s2" 100 0
      rfl rfl rfl rfl).2.1 rfl rfl rfl

/-- C3 counterexample: refutes the claim that the ledger is exactly the
same after a MountOperationError failure "including in the case where
target already had an entry": here the call fails with
MountOperationError, the ledger held [("/t", "/s0")] before the call, and
is empty afterwards — the pre-existing entry did not survive. -/
theorem C3_prior_entry_lost_cex :
    (mount_override (envBindFails 9) (nodeWithT 9) "/t" "/s2").2.2
      = Except.error (Err.mountOp "Failed to add mount: boom") ∧
    (nodeWithT 9).mount_overrides = [("/t", "/s0")] ∧
    (mount_override (envBindFails 9) (nodeWithT 9) "/t" "/s2").1.mount_overrides
      = [] := by
  refine ⟨rfl, rfl, rfl⟩

/-- C4: with a dead anchor at call time and valid arguments, the liveness
probe detects the death, the ledger is cleared, a fresh anchor is started,
and on success the ledger holds exactly the one new (target, source)
entry; no earlier entry survives, and the new anchor's pid is returned. -/
theorem C4_anchor_autoheal (env : Env) (s : NodeState) (T S : String)
    (p i : Nat) (hsrc : env.pathExists S = true) (ht : isabs T = true)
    (hs : isabs S = true) (hp : s.mount_ns_pid = some p)
    (hdead : env.alive p = false)
    (hstart : pollLoop env.helper 30 0 = StartOutcome.found i)
    (hbind : env.bindOk T S = true) :
    mount_override env s T S =
      ({ s with
          mount_ns_pid := some env.helper.helperPid
          mount_overrides := [(T, S)] },
       [Event.spawnHelper, Event.unlinkPidFile, Event.bindMount T S],
       Except.ok (some env.helper.helperPid)) := by
  simp only [mount_override, afterEnsure, start_mount_helper, doMount,
    hp, hsrc, ht, hs, hdead, hstart, hbind]
  simp [hasTarget]

/-- C4 witness: anchor pid 100 is dead, a fresh helper with pid 200
starts; the stale entry ("/t", "/s0") is wiped and only the new one
remains. -/
theorem C4_anchor_autoheal_witness :
    mount_override (envAllDead 200) (nodeWithT 100) "/t" "/s2" =
      ({ nodeWithT 100 with
          mount_ns_pid := some 200
          mount_overrides := [("/t", "/s2")] },
       [Event.spawnHelper, Event.unlinkPidFile, Event.bindMount "/t" "/s2"],
       Except.ok (some 200)) :=
  C4_anchor_autoheal (envAllDead 200) (nodeWithT 100) "/t" "/s2" 100 0
    rfl rfl rfl rfl rfl rfl rfl

/-- C5 (amended): anchor startup polls for the handshake PID file at most
30 times; if the helper process exits before producing the handshake, it
fails with HelperStartupError carrying the captured startup log; if the
retry ceiling is reached, it terminates the helper and fails with
HelperStartupError whose message is the fixed text "mount helper timeout"
(without the captured log); on success the anchor pid is recorded from the
handshake artifact and the artifact is deleted. -/
theorem C5_startup_protocol (henv : HelperEnv) (s : NodeState) :
    (∀ i, pollLoop henv 30 0 = StartOutcome.found i → i < 30) ∧
    (∀ i, pollLoop henv 30 0 = StartOutcome.exited i → i < 30) ∧
    (∀ i, pollLoop henv 30 0 = StartOutcome.found i →
      start_mount_helper henv s =
        ({ s with mount_ns_pid := some henv.helperPid },
         [Event.spawnHelper, Event.unlinkPidFile], Except.ok ())) ∧
    (∀ i, pollLoop henv 30 0 = StartOutcome.exited i →
      start_mount_helper henv s =
        (s, [Event.spawnHelper],
         Except.error (Err.helperStartup
           ("mount helper failed: " ++ henv.logContent)))) ∧
    (pollLoop henv 30 0 = StartOutcome.ceiling →
      start_mount_helper henv s =
        (s, [Event.spawnHelper, Event.terminateHelperProc],
         Except.error (Err.helperStartup "mount helper timeout"))) := by
  refine ⟨?_, ?_, ?_, ?_, ?_⟩
  · intro i hq
    have := pollLoop_found_lt henv 30 0 i hq
    omega
  · intro i hq
    have := pollLoop_exited_lt henv 30 0 i hq
    omega
  · intro i hq
    simp [start_mount_helper, hq]
  · intro i hq
    simp [start_mount_helper, hq]
  · intro hq
    simp [start_mount_helper, hq]

/-- C5 witness: a helper whose handshake appears at the first poll; the
pid (77) is recorded from the artifact and the artifact is unlinked. -/
theorem C5_startup_protocol_witness :
    start_mount_helper (helperQuick 77) (Node.init "h1") =
      ({ Node.init "h1" with mount_ns_pid := some 77 },
       [Event.spawnHelper, Event.unlinkPidFile], Except.ok ()) :=
  (C5_startup_protocol (helperQuick 77) (Node.init "h1")).2.2.1 0 rfl

/-- C5 counterexample: in the retry-ceiling branch the raised error does
not carry the captured startup log: the result is identical whatever the
log contains (here "BOOT FAILURE DETAILS" vs ""), and its message is the
fixed text "mount helper timeout" — refuting "carrying the captured
startup log ... in both failure branches". -/
theorem C5_ceiling_log_cex :
    start_mount_helper (helperCeiling "BOOT FAILURE DETAILS") (Node.init "h1")
      = (Node.init "h1", [Event.spawnHelper, Event.terminateHelperProc],
         Except.error (Err.helperStartup "mount helper timeout")) ∧
    start_mount_helper (helperCeiling "BOOT FAILURE DETAILS") (Node.init "h1")
      = start_mount_helper (helperCeiling "") (Node.init "h1") := by
  constructor
  · rfl
  · rfl

/-- C6 (amended): precondition failures of `mount_override`, in source
order: a missing source fails with SourceNotFoundError; with an existing
source, a relative target — and then a relative source — fails with
InvalidPathError.  In every such case no anchor process is started, no
external operation is performed (empty event trace), and the node state,
including the Override Ledger, is returned unchanged. -/
theorem C6_precondition_failures (env : Env) (s : NodeState) (T S : String) :
    (env.pathExists S = false →
      mount_override env s T S =
        (s, [], Except.error (Err.sourceNotFound ("src path not found: " ++ S)))) ∧
    (env.pathExists S = true → isabs T = false →
      mount_override env s T S =
        (s, [], Except.error (Err.invalidPath "target_path must be absolute"))) ∧
    (env.pathExists S = true → isabs T = true → isabs S = false →
      mount_override env s T S =
        (s, [], Except.error (Err.invalidPath "src_path must be absolute"))) := by
  refine ⟨?_, ?_, ?_⟩
  · intro h1
    simp [mount_override, h1]
  · intro h1 h2
    simp [mount_override, h1, h2]
  · intro h1 h2 h3
    simp [mount_override, h1, h2, h3]

/-- C6 witness: a relative target with an existing source fails with
InvalidPathError leaving everything untouched. -/
theorem C6_precondition_failures_witness :
    mount_override (envAllOk 5) (Node.init "h1") "relative/path" "/src" =
      (Node.init "h1", [],
       Except.error (Err.invalidPath "target_path must be absolute")) :=
  (C6_precondition_failures (envAllOk 5) (Node.init "h1") "relative/path" "/src").2.1
    rfl rfl

/-- C6 counterexample: when the target is relative AND the source is
missing, the call fails with SourceNotFoundError, not the InvalidPathError
the claim requires for every non-absolute target. -/
theorem C6_relative_and_missing_cex :
    mount_override envNoSource (Node.init "h1") "relative/path" "relsrc" =
      (Node.init "h1", [],
       Except.error (Err.sourceNotFound "src path not found: relsrc")) := rfl

/-- C9: the source-existence check runs first: a missing source always
yields SourceNotFoundError (whatever the shape of the paths), and an
InvalidPathError can only be observed when the source exists. -/
theorem C9_source_existence_first (env : Env) (s : NodeState) (T S : String) :
    (env.pathExists S = false →
      mount_override env s T S =
        (s, [], Except.error (Err.sourceNotFound ("src path not found: " ++ S)))) ∧
    (∀ s' ev m, mount_override env s T S = (s', ev, Except.error (Err.invalidPath m)) →
      env.pathExists S = true) := by
  constructor
  · intro h1
    simp [mount_override, h1]
  · intro s' ev m h
    by_cases h1 : env.pathExists S = true
    · exact h1
    · have h1f : env.pathExists S = false := by
        cases hx : env.pathExists S
        · rfl
        · exact absurd hx h1
      have hlhs : mount_override env s T S
          = (s, [], Except.error (Err.sourceNotFound ("src path not found: " ++ S))) := by
        simp [mount_override, h1f]
      rw [hlhs] at h
      injection h with a1 a2
      injection a2 with a3 a4
      injection a4 with a5
      exact Err.noConfusion a5

/-- C9 witness: missing source with a relative target still yields
SourceNotFoundError. -/
theorem C9_source_existence_first_witness :
    mount_override envNoSource (Node.init "h1") "rel/target" "/src" =
      (Node.init "h1", [],
       Except.error (Err.sourceNotFound "src path not found: /src")) :=
  (C9_source_existence_first envNoSource (Node.init "h1") "rel/target" "/src").1 rfl

/-- C7 (amended): `cmd_stream` returns −1 on timeout after signalling
SIGTERM to the process group, −2 on interactive cancellation (SIGINT
first, then SIGTERM if the group has not exited within the 2 s grace
wait); a command that exits of its own accord returns its exit code, a
non-negative value that is never −1 or −2.  A command killed by signal
`g`, however, returns `-g` (the `subprocess` returncode convention), so
deaths by signal 1 (SIGHUP) or 2 (SIGINT) collide with the sentinels. -/
theorem C7_stream_sentinels (env : StreamEnv) (s : NodeState) (c : String) :
    (env.interrupted = true →
      (cmd_stream env s c).2.2 = -2 ∧
      Event.sigintGroup ∈ (cmd_stream env s c).2.1) ∧
    (env.interrupted = true → env.exitsInGrace = false →
      Event.sigtermGroup ∈ (cmd_stream env s c).2.1) ∧
    (env.interrupted = false → env.waitOutcome = WaitOutcome.hangs →
      (cmd_stream env s c).2.2 = -1 ∧
      Event.sigtermGroup ∈ (cmd_stream env s c).2.1) ∧
    (∀ n, env.interrupted = false → env.waitOutcome = WaitOutcome.exited n →
      (cmd_stream env s c).2.2 = (n : Int) ∧
      (cmd_stream env s c).2.2 ≠ -1 ∧ (cmd_stream env s c).2.2 ≠ -2) ∧
    (∀ g, env.interrupted = false → env.waitOutcome = WaitOutcome.signaled g →
      (cmd_stream env s c).2.2 = -(g : Int)) := by
  refine ⟨?_, ?_, ?_, ?_, ?_⟩
  · intro hi
    by_cases hg : env.exitsInGrace = true
    · simp [cmd_stream, hi, hg]
    · have hgf : env.exitsInGrace = false := by
        cases hx : env.exitsInGrace
        · rfl
        · exact absurd hx hg
      simp [cmd_stream, hi, hgf]
  · intro hi hg
    simp [cmd_stream, hi, hg]
  · intro hi hw
    simp [cmd_stream, hi, hw]
  · intro n hi hw
    refine ⟨by simp [cmd_stream, hi, hw], ?_, ?_⟩ <;>
      simp [cmd_stream, hi, hw]
  · intro g hi hw
    simp [cmd_stream, hi, hw]

/-- C7 witness: concrete instances — an interrupted command returns −2
after SIGINT then SIGTERM; a hanging command returns −1; a command exiting
with code 3 returns 3. -/
theorem C7_stream_sentinels_witness :
    (cmd_stream senvIntr (Node.init "h1") "x").2.2 = -2 ∧
    Event.sigintGroup ∈ (cmd_stream senvIntr (Node.init "h1") "x").2.1 ∧
    Event.sigtermGroup ∈ (cmd_stream senvIntr (Node.init "h1") "x").2.1 ∧
    (cmd_stream senvHangs (Node.init "h1") "x").2.2 = -1 ∧
    (cmd_stream senvExit3 (Node.init "h1") "x").2.2 = 3 := by
  refine ⟨?_, ?_, ?_, ?_, ?_⟩
  · exact ((C7_stream_sentinels senvIntr (Node.init "h1") "x").1 rfl).1
  · exact ((C7_stream_sentinels senvIntr (Node.init "h1") "x").1 rfl).2
  · exact (C7_stream_sentinels senvIntr (Node.init "h1") "x").2.1 rfl rfl
  · exact ((C7_stream_sentinels senvHangs (Node.init "h1") "x").2.2.1 rfl rfl).1
  · exact ((C7_stream_sentinels senvExit3 (Node.init "h1") "x").2.2.2.1 3 rfl rfl).1

/-- C7 counterexample: a command whose shell is killed by signal 1
(SIGHUP) — neither timed out nor interrupted, and no SIGTERM was ever sent
to its group — completes with status −1, identical to the reserved
"timed out" sentinel, refuting the claim that a completed command's
status is never −1. -/
theorem C7_signal_collision_cex :
    (cmd_stream senvHup (Node.init "h1") "x").2.2 = -1 ∧
    senvHup.interrupted = false ∧
    senvHup.waitOutcome = WaitOutcome.signaled 1 ∧
    Event.sigtermGroup ∉ (cmd_stream senvHup (Node.init "h1") "x").2.1 := by
  refine ⟨rfl, rfl, rfl, ?_⟩
  decide

/-- C8: `cmd` in capturing mode: when the probe state is consistent (the
anchor, if recorded and truthy, is alive), a command that completes
returns the concatenation of its captured stdout and stderr; a command
that exceeds its timeout propagates the CommandTimeout condition; in both
cases the node state — in particular the recorded anchor pid — is
returned intact. -/
theorem C8_cmd_capture (env : CmdEnv) (s : NodeState) (c o e : String) :
    (s.mount_ns_pid = none → env.runNetns c = RunOutcome.done o e →
      cmd env s c = (s, [Event.netnsRun s.name c], Except.ok (o ++ e))) ∧
    (s.mount_ns_pid = none → env.runNetns c = RunOutcome.timedOut →
      cmd env s c = (s, [Event.netnsRun s.name c], Except.error Err.commandTimeout)) ∧
    (∀ p, s.mount_ns_pid = some p → p ≠ 0 → env.alive p = true →
      env.runBoth p c = RunOutcome.done o e →
      cmd env s c = (s, [Event.netnsIdentify p, Event.nsenterRun p c],
        Except.ok (o ++ e))) ∧
    (∀ p, s.mount_ns_pid = some p → p ≠ 0 → env.alive p = true →
      env.runBoth p c = RunOutcome.timedOut →
      cmd env s c = (s, [Event.netnsIdentify p, Event.nsenterRun p c],
        Except.error Err.commandTimeout)) := by
  refine ⟨?_, ?_, ?_, ?_⟩
  · intro hp hr
    simp [cmd, cmd_fallback, hp, hr]
  · intro hp hr
    simp [cmd, cmd_fallback, hp, hr]
  · intro p hp hz ha hr
    simp [cmd, hp, hz, ha, hr]
  · intro p hp hz ha hr
    simp [cmd, hp, hz, ha, hr]

/-- C8 witness: with live anchor pid 7, a completed command returns the
concatenated output "A" ++ "B" and a timed-out command propagates
CommandTimeout, the state intact in both cases. -/
theorem C8_cmd_capture_witness :
    cmd cenvLive nodeLive7 "ls" =
      (nodeLive7, [Event.netnsIdentify 7, Event.nsenterRun 7 "ls"],
       Except.ok "AB") ∧
    cmd cenvTimesOut nodeLive7 "sleep 99" =
      (nodeLive7, [Event.netnsIdentify 7, Event.nsenterRun 7 "sleep 99"],
       Except.error Err.commandTimeout) := by
  constructor
  · exact (C8_cmd_capture cenvLive nodeLive7 "ls" "A" "B").2.2.1 7 rfl
      (by decide) rfl rfl
  · exact (C8_cmd_capture cenvTimesOut nodeLive7 "sleep 99" "" "").2.2.2 7 rfl
      (by decide) rfl rfl

/-- C10: command execution never mutates the override bookkeeping: `cmd`
and `cmd_stream` leave the Override Ledger, the interfaces list, the
interface counter and the name unchanged; the only field either may
modify is the anchor pid, which is cleared exactly when the liveness
probe runs and fails (`deadProbe`). -/
theorem C10_command_frame (ce : CmdEnv) (se : StreamEnv) (s : NodeState)
    (c : String) :
    ((cmd ce s c).1.mount_overrides = s.mount_overrides ∧
     (cmd ce s c).1.interfaces = s.interfaces ∧
     (cmd ce s c).1.if_count = s.if_count ∧
     (cmd ce s c).1.name = s.name ∧
     (cmd ce s c).1.mount_ns_pid =
       (if deadProbe ce.alive s then none else s.mount_ns_pid)) ∧
    ((cmd_stream se s c).1.mount_overrides = s.mount_overrides ∧
     (cmd_stream se s c).1.interfaces = s.interfaces ∧
     (cmd_stream se s c).1.if_count = s.if_count ∧
     (cmd_stream se s c).1.name = s.name ∧
     (cmd_stream se s c).1.mount_ns_pid =
       (if deadProbe se.alive s then none else s.mount_ns_pid)) := by
  constructor
  · cases hpid : s.mount_ns_pid with
    | none =>
      cases hr : ce.runNetns c <;>
        simp [cmd, cmd_fallback, deadProbe, hpid, hr]
    | some p =>
      by_cases hz : p = 0
      · subst hz
        cases hr : ce.runNetns c <;>
          simp [cmd, cmd_fallback, deadProbe, hpid, hr]
      · cases ha : ce.alive p with
        | true =>
          cases hr : ce.runBoth p c <;>
            simp [cmd, deadProbe, hpid, hz, ha, hr]
        | false =>
          simp [cmd, deadProbe, hpid, hz, ha]
  · cases hpid : s.mount_ns_pid with
    | none =>
      cases hi : se.interrupted <;> cases hg : se.exitsInGrace <;>
        cases hw : se.waitOutcome <;>
          simp [cmd_stream, deadProbe, hpid, hi, hg, hw]
    | some p =>
      by_cases hz : p = 0
      · subst hz
        cases hi : se.interrupted <;> cases hg : se.exitsInGrace <;>
          cases hw : se.waitOutcome <;>
            simp [cmd_stream, deadProbe, hpid, hi, hg, hw]
      · cases ha : se.alive p with
        | true =>
          cases hi : se.interrupted <;> cases hg : se.exitsInGrace <;>
            cases hw : se.waitOutcome <;>
              simp [cmd_stream, deadProbe, hpid, hz, ha, hi, hg, hw]
        | false =>
          cases hi : se.interrupted <;> cases hg : se.exitsInGrace <;>
            cases hw : se.waitOutcome <;>
              simp [cmd_stream, deadProbe, hpid, hz, ha, hi, hg, hw]

/-- C2 (amended): if `mount_override(h, T, S1)` and then
`mount_override(h, T, S2)` both succeed, starting from a ledger with at
most one entry for `T` (the invariant every reachable ledger satisfies),
the ledger afterwards contains — unconditionally — exactly one entry
whose target is `T`, and its source is `S2`.  If the anchor recorded by
the first call is still alive when the second call probes it, exactly one
unmount of `T` is performed during the second call, i.e. between the two
bind mounts; if that anchor is dead at the probe, the second call
performs zero unmounts: it clears the ledger, starts a fresh anchor whose
pid it records, and leaves exactly the new entry. -/
theorem C2_idempotent_remount (env1 env2 : Env) (s0 s1 s2 : NodeState)
    (ev1 ev2 : List Event) (r1 r2 : Option Nat) (T S1 S2 : String)
    (huniq : (targetEntries s0.mount_overrides T).length ≤ 1)
    (h1 : mount_override env1 s0 T S1 = (s1, ev1, Except.ok r1))
    (h2 : mount_override env2 s1 T S2 = (s2, ev2, Except.ok r2)) :
    targetEntries s2.mount_overrides T = [(T, S2)] ∧
    (∀ p1, s1.mount_ns_pid = some p1 → env2.alive p1 = true →
      unmountCount ev2 T = 1) ∧
    (∀ p1, s1.mount_ns_pid = some p1 → env2.alive p1 = false →
      s2.mount_overrides = [(T, S2)] ∧
      s2.mount_ns_pid = some env2.helper.helperPid ∧
      unmountCount ev2 T = 0) := by
  have hTE1 : targetEntries s1.mount_overrides T = [(T, S1)] := by
    rcases mount_override_ok_inv h1 with ⟨hL, _⟩ | ⟨hL, _⟩
    · rw [hL, targetEntries_append, targetEntries_removeFirstTarget,
        tail_eq_nil_of_length_le_one huniq, targetEntries_pair]
      rfl
    · rw [hL, targetEntries_pair]
  have hasT1 : hasTarget s1.mount_overrides T = true := by
    apply (hasTarget_iff_targetEntries s1.mount_overrides T).mpr
    rw [hTE1]
    simp
  refine ⟨?_, ?_, ?_⟩
  · rcases mount_override_ok_inv h2 with ⟨hL, _⟩ | ⟨hL, _⟩
    · rw [hL, targetEntries_append, targetEntries_removeFirstTarget, hTE1,
        targetEntries_pair]
      rfl
    · rw [hL, targetEntries_pair]
  · intro p1 hp1 halive
    rcases mount_override_alive_ok_inv hp1 halive h2 with ⟨_g1, _g2, g3⟩
    rw [g3, hasT1]
    rfl
  · intro p1 hp1 hdead
    exact mount_override_dead_ok_inv hp1 hdead h2

/-- C2 witness: two successful overrides of "/t" (sources "/s1" then
"/s2") on a fresh node.  With the anchor (pid 100) alive throughout, the
final ledger's entries for "/t" are exactly [("/t", "/s2")] and the
second call performed exactly one unmount of "/t"; with the anchor dead
before the second call (fresh pid 200), the second call performed zero
unmounts. -/
theorem C2_idempotent_remount_witness :
    targetEntries [("/t", "/s2")] "/t" = [("/t", "/s2")] ∧
    unmountCount [Event.unmount "/t", Event.bindMount "/t" "/s2"] "/t" = 1 ∧
    unmountCount [Event.spawnHelper, Event.unlinkPidFile,
      Event.bindMount "/t" "/s2"] "/t" = 0 := by
  have ha := C2_idempotent_remount (envAllOk 100) (envAllOk 100) (Node.init "h1")
    { name := "h1", interfaces := [], if_count := 0,
      mount_ns_pid := some 100, mount_overrides := [("/t", "/s1")] }
    { name := "h1", interfaces := [], if_count := 0,
      mount_ns_pid := some 100, mount_overrides := [("/t", "/s2")] }
    [Event.spawnHelper, Event.unlinkPidFile, Event.bindMount "/t" "/s1"]
    [Event.unmount "/t", Event.bindMount "/t" "/s2"]
    (some 100) (some 100) "/t" "/s1" "/s2"
    (by simp [targetEntries, Node.init]) rfl rfl
  have hd := C2_idempotent_remount (envAllOk 100) (envAllDead 200) (Node.init "h1")
    { name := "h1", interfaces := [], if_count := 0,
      mount_ns_pid := some 100, mount_overrides := [("/t", "/s1")] }
    { name := "h1", interfaces := [], if_count := 0,
      mount_ns_pid := some 200, mount_overrides := [("/t", "/s2")] }
    [Event.spawnHelper, Event.unlinkPidFile, Event.bindMount "/t" "/s1"]
    [Event.spawnHelper, Event.unlinkPidFile, Event.bindMount "/t" "/s2"]
    (some 100) (some 200) "/t" "/s1" "/s2"
    (by simp [targetEntries, Node.init]) rfl rfl
  exact ⟨ha.1, ha.2.1 100 rfl rfl, (hd.2.2 100 rfl rfl).2.2⟩

/-- C2 counterexample: both calls succeed, but the anchor died between
them; the second call detects the death, clears the ledger and restarts,
so the final ledger is correct — yet zero unmounts of "/t" were performed
between the two bind mounts, refuting the unconditional "exactly one
unmount" part of the claim. -/
theorem C2_restart_no_unmount_cex :
    (mount_override (envAllOk 100) (Node.init "h1") "/t" "/s1").2.2
      = Except.ok (some 100) ∧
    (mount_override (envAllDead 200)
        (mount_override (envAllOk 100) (Node.init "h1") "/t" "/s1").1
        "/t" "/s2").2.2
      = Except.ok (some 200) ∧
    targetEntries
      (mount_override (envAllDead 200)
        (mount_override (envAllOk 100) (Node.init "h1") "/t" "/s1").1
        "/t" "/s2").1.mount_overrides "/t"
      = [("/t", "/s2")] ∧
    unmountCount
      (mount_override (envAllDead 200)
        (mount_override (envAllOk 100) (Node.init "h1") "/t" "/s1").1
        "/t" "/s2").2.1 "/t"
      = 0 := by
  refine ⟨rfl, rfl, rfl, rfl⟩

end Mmns
